import Mathlib

/-
Shallow embedding of `src/PM100.py` (Thorlabs PM100 power-meter wrapper).

The Python class `PM100` is a thin wrapper around a pyvisa resource manager
and the ThorlabsPM100 driver.  We model:

  * the mutable instance state as the structure `PMState` (Python attributes
    that may be unset, such as `self.inst`, `self.conversion`,
    `self.unit_to_measure`, `self.n_averages`, are `Option`s: reading an
    unset attribute raises `AttributeError` in Python);
  * the external world (device readings, operator keyboard input and
    injected device-communication failures) as the structure `Dev`;
  * observable behaviour as a trace of effects (`Eff`): console prints,
    device writes, device reads, the interactive prompt, the open of a
    visa resource, the close of the handle;
  * each method as a function `Dev → args → PMState → PMState × List Eff ×
    Outcome`, where `Outcome` distinguishes a normal return (with the
    returned value), an uncaught Python exception, and `sys.exit`.

Device reads are modelled by a stream `Dev.readVals : ℕ → ℚ` together with a
counter `PMState.readsDone`: the k-th read performed over the life of the
state returns `readVals k`.  Numbers are modelled as exact rationals.
Device-communication failures are injected by boolean flags on `Dev` for
exactly the operations whose error handling the specification discusses
(open, driver wrap, close, the unit write of `set_units`, the low-pass
filter write of `set_bandwidth`); the remaining device accesses are modelled
as succeeding whenever the driver object `power_meter` is present, and as
raising `AttributeError` (uncaught, per the source) when it is absent.
-/

namespace PM100

/-- Console output lines. Each constructor stands for one `print` call of
`src/PM100.py`, carrying the data interpolated into the f-string. -/
inductive Out where
  /-- line 43: `Connection to device {self.device} ended` -/
  | connEnded (dev : String)
  /-- line 45: `No device connected!` -/
  | noDevice
  /-- line 58: `Found the following devices: ...` -/
  | foundDevices (devs : List String)
  /-- line 70: `Connection to device {self.device} succesful!` -/
  | connSuccess (dev : String)
  /-- line 73: `Connection to device unsuccesful {e}` -/
  | connFailed
  /-- line 88: `Average value : {round(data.mean(), 2)} {self.unit}` -/
  | averageValue (v : ℚ) (unit : String)
  /-- line 89: `Standard Deviation : {round(data.std(), 2)} {self.unit}` -/
  | stdDev (v : ℚ) (unit : String)
  /-- line 146: `Power reading: {round(data, 2)}{self.unit}` -/
  | powerReading (v : ℚ) (unit : String)
  /-- line 161: `Invalid state '{state}'. ...` -/
  | invalidState (st : String)
  /-- line 167: `bandwidth set to {state}` -/
  | bandwidthSet (st : String)
  /-- line 169: `An error occurred: {e}` (set_bandwidth except branch) -/
  | bandwidthError
  /-- line 212: `Units set to {self.unit}` -/
  | unitsSet (u : String)
  /-- line 214: `Error changing unit type: {e}` (set_units except branch) -/
  | unitError
deriving DecidableEq, Repr

/-- Observable effects of a method call, in order of occurrence. -/
inductive Eff where
  /-- a console `print` -/
  | print (o : Out)
  /-- line 209: assignment to `self.power_meter.sense.power.dc.unit` -/
  | devSetUnit (u : String)
  /-- line 165: assignment to `...filter.lpass.state` -/
  | devSetLpass (v : Nat)
  /-- line 179: assignment to `self.power_meter.sense.average.count` -/
  | devSetAvgCount (n : Nat)
  /-- line 140: `self.power_meter.configure.scalar.power()` -/
  | devConfigPower
  /-- a read of `self.power_meter.read`; the argument is the index of this
  read in the global read stream -/
  | devRead (k : Nat)
  /-- line 66: `self.rm.open_resource(self.device, ...)` attempted on `dev` -/
  | openRes (dev : String)
  /-- a blocking `input(...)` call (lines 60 and 201) -/
  | promptInput
  /-- line 40: `self.inst.close()` completed -/
  | instClose
deriving DecidableEq, Repr

/-- Value returned by a method, when it returns one. -/
inductive Ret where
  | scalar (q : ℚ)
  | arr (l : List ℚ)
deriving DecidableEq, Repr

/-- How a method call finished: normal return (with an optional returned
value), an uncaught Python exception, or process termination via
`sys.exit msg`. -/
inductive Outcome where
  | ok (r : Option Ret)
  | raised
  | exited (msg : String)
deriving DecidableEq, Repr

/-- The external world: the stream of raw device readings, the operator's
keyboard answer to a blocking `input(...)`, and injected
device-communication failures. -/
structure Dev where
  readVals : Nat → ℚ
  inputAnswer : String
  openFails : Bool := false
  wrapFails : Bool := false
  closeFails : Bool := false
  unitWriteFails : Bool := false
  lpassWriteFails : Bool := false

/-- The mutable state of a `PM100` instance.  Attributes that Python only
creates on first assignment are `Option`s (`none` = attribute absent, so a
read raises `AttributeError`).  `power_meter : Bool` records whether
`self.power_meter` exists.  `readsDone` is a modelling artifact: the number
of raw device reads performed so far, indexing into `Dev.readVals`. -/
structure PMState where
  devices : List String
  device : Option String := none
  inst : Option String := none
  power_meter : Bool := false
  unit : String := "W"
  verbose : Bool := true
  n_averages : Option Nat := none
  conversion : Option ℚ := none
  unit_to_measure : Option String := none
  readsDone : Nat := 0
deriving DecidableEq, Repr

/-- `__init__` (lines 25-33): store the discovered device list, default the
unit to `W`, store the verbosity flag; nothing is opened. -/
def construct (devices : List String) (verbose : Bool) : PMState :=
  { devices := devices, verbose := verbose }

/-- `close` (lines 35-45): `try: self.inst.close(); if verbose: print(...)
except: print('No device connected!')`.  Any failure inside the `try`
(absent `inst` attribute, a failing `close()`, or an absent `device`
attribute in the verbose f-string) lands in the `except` branch. -/
def close (d : Dev) (s : PMState) : PMState × List Eff × Outcome :=
  match s.inst with
  | none => (s, [Eff.print Out.noDevice], Outcome.ok none)
  | some _ =>
    if d.closeFails then
      (s, [Eff.print Out.noDevice], Outcome.ok none)
    else if s.verbose then
      match s.device with
      | some dv => (s, [Eff.instClose, Eff.print (Out.connEnded dv)], Outcome.ok none)
      | none => (s, [Eff.instClose, Eff.print Out.noDevice], Outcome.ok none)
    else
      (s, [Eff.instClose], Outcome.ok none)

/-- Open-and-wrap part of `initialise` (lines 65-73), after the device name
`dv` has been selected with selection trace `t0`.  `open_resource` and the
`ThorlabsPM100` wrap both sit inside the surrounding `try`, whose `except`
catches any `Exception` and prints (line 73). -/
def initialiseOpen (d : Dev) (dv : String) (t0 : List Eff) (s : PMState) :
    PMState × List Eff × Outcome :=
  let s1 : PMState := { s with device := some dv }
  let t1 := t0 ++ [Eff.openRes dv]
  if d.openFails then
    (s1, t1 ++ [Eff.print Out.connFailed], Outcome.ok none)
  else
    let s2 : PMState := { s1 with inst := some dv }
    if d.wrapFails then
      (s2, t1 ++ [Eff.print Out.connFailed], Outcome.ok none)
    else
      ({ s2 with power_meter := true },
       t1 ++ (if s.verbose then [Eff.print (Out.connSuccess dv)] else []),
       Outcome.ok none)

/-- `initialise` (lines 47-73).  Selection policy: an explicit `device`
argument wins; else a single discovered device is taken; else with several
devices the operator is prompted; with none, `sys.exit('Could not find
device')` runs — `SystemExit` is not an `Exception`, so the surrounding
`except Exception` does not catch it and the process terminates. -/
def initialise (d : Dev) (device : Option String) (s : PMState) :
    PMState × List Eff × Outcome :=
  match device, s.devices with
  | none, [] => (s, [], Outcome.exited "Could not find device")
  | some dv, _ => initialiseOpen d dv [] s
  | none, [dv] => initialiseOpen d dv [] s
  | none, dv1 :: dv2 :: rest =>
    initialiseOpen d d.inputAnswer
      [Eff.print (Out.foundDevices (dv1 :: dv2 :: rest)), Eff.promptInput] s

/-- Model of Python `round(x, 2)`: round to 2 decimal places.  Both the
code model and the specification statements use this same function, so the
exact tie-breaking convention is immaterial to the theorems below. -/
def round2 (q : ℚ) : ℚ := (round (q * 100) : ℤ) / 100

/-- Model of `numpy.ndarray.mean()` on the sampled data: the exact
arithmetic mean (sum divided by length). -/
def mean (l : List ℚ) : ℚ := l.sum / (l.length : ℚ)

/-- The `unit_types` dict of `set_units` (lines 194-198):
`{nW: 1E-9, uW: 1E-6, mW: 1E-3, W: 1, dBm: 1}`, as a lookup function.
A `none` result models a `KeyError` on subscripting / a failed
`in` test. -/
def lookupScale (u : String) : Option ℚ :=
  if u = "nW" then some (1 / 1000000000)
  else if u = "uW" then some (1 / 1000000)
  else if u = "mW" then some (1 / 1000)
  else if u = "W" then some 1
  else if u = "dBm" then some 1
  else none

/-- The native unit mode `set_units` computes for a unit symbol
(lines 203-206): the string `DBM` for `dBm`, else the string `W` (the
instrument's linear-power mode, called POWER in the specification). -/
def modeOf (u : String) : String := if u = "dBm" then "DBM" else "W"

/-- Unit-adoption step of `set_units` (lines 190-192): `if unit:
self.unit = unit` adopts a provided truthy argument (`None` and the empty
string are falsy). -/
def adoptUnit (unit : Option String) (s : PMState) : PMState :=
  match unit with
  | some u => if u = "" then s else { s with unit := u }
  | none => s

/-- Re-prompt step of `set_units` (lines 200-201): if the stored unit is
not a key of `unit_types`, one blocking `input` replaces it; the operator's
answer is adopted without any further validation. -/
def repromptUnit (d : Dev) (s : PMState) : PMState × List Eff :=
  if (lookupScale s.unit).isNone then
    (({ s with unit := d.inputAnswer } : PMState), [Eff.promptInput])
  else (s, [])

/-- Mode assignment and `try` block of `set_units` (lines 202-214).
`self.unit_to_measure` is assigned BEFORE the `try` block.  Inside the
`try`: the device-unit write (injected failure `d.unitWriteFails`; also an
`AttributeError` when `power_meter` is absent), then
`self.conversion = unit_types[self.unit]` (a `KeyError` when the unit is
not in the table), then the verbose print; the `except` prints the error. -/
def setUnitsBody (d : Dev) (s2 : PMState) : PMState × List Eff :=
  let s3 : PMState := { s2 with unit_to_measure := some (modeOf s2.unit) }
  if s3.power_meter = false ∨ d.unitWriteFails then
    (s3, [Eff.print Out.unitError])
  else
    match lookupScale s3.unit with
    | none =>
      (s3, [Eff.devSetUnit (modeOf s3.unit), Eff.print Out.unitError])
    | some c =>
      ({ s3 with conversion := some c },
       [Eff.devSetUnit (modeOf s3.unit)] ++
         (if s3.verbose then [Eff.print (Out.unitsSet s3.unit)] else []))

/-- `set_units` (lines 181-214): adoption of the argument, the single
re-prompt for an unknown stored unit, then the mode assignment and the
`try` block.  All exceptions inside the `try` are caught, so the method
always returns normally (with `None`). -/
def set_units (d : Dev) (unit : Option String) (s : PMState) :
    PMState × List Eff × Outcome :=
  let p1 := repromptUnit d (adoptUnit unit s)
  let p2 := setUnitsBody d p1.1
  (p2.1, p1.2 ++ p2.2, Outcome.ok none)

/-- `set_bandwidth` (lines 150-169).  The dict is `{'low': 1, 'high': 0}`;
an input outside it is rejected with a print and an early `return` before
any device access; otherwise the low-pass filter write sits in a
`try/except` that prints on failure. -/
def set_bandwidth (d : Dev) (state : String) (s : PMState) :
    PMState × List Eff × Outcome :=
  let bw : Option Nat :=
    if state = "low" then some 1 else if state = "high" then some 0 else none
  match bw with
  | none => (s, [Eff.print (Out.invalidState state)], Outcome.ok none)
  | some v =>
    if s.power_meter = false ∨ d.lpassWriteFails then
      (s, [Eff.print Out.bandwidthError], Outcome.ok none)
    else
      (s, [Eff.devSetLpass v, Eff.print (Out.bandwidthSet state)], Outcome.ok none)

/-- `average` (lines 75-91), parametrised by `npstd`, an uninterpreted
function standing for `numpy.ndarray.std()` (its floating-point square
root is not exactly representable; every theorem below only states WHAT
LIST it is applied to).  Line 85 evaluates `range(self.n_averages)` first
(an `AttributeError` when `n_averages` is unset), then runs the
comprehension, each iteration reading `self.power_meter.read` and dividing
by `self.conversion`; none of these accesses is guarded, so a failure
propagates.  The verbose prints report `round(data.mean(), 2)` and
`round(data.std(), 2)` of the very array that is returned. -/
def average (d : Dev) (npstd : List ℚ → ℚ) (s : PMState) :
    PMState × List Eff × Outcome :=
  match s.n_averages with
  | none => (s, [], Outcome.raised)
  | some n =>
    if n = 0 then
      let prints :=
        if s.verbose then
          [Eff.print (Out.averageValue (round2 (mean [])) s.unit),
           Eff.print (Out.stdDev (round2 (npstd [])) s.unit)]
        else []
      (s, prints, Outcome.ok (some (Ret.arr [])))
    else if s.power_meter = false then
      (s, [], Outcome.raised)
    else
      match s.conversion with
      | none =>
        ({ s with readsDone := s.readsDone + 1 }, [Eff.devRead s.readsDone],
         Outcome.raised)
      | some c =>
        let data := (List.range n).map (fun i => d.readVals (s.readsDone + i) / c)
        let reads := (List.range n).map (fun i => Eff.devRead (s.readsDone + i))
        let prints :=
          if s.verbose then
            [Eff.print (Out.averageValue (round2 (mean data)) s.unit),
             Eff.print (Out.stdDev (round2 (npstd data)) s.unit)]
          else []
        ({ s with readsDone := s.readsDone + n }, reads ++ prints,
         Outcome.ok (some (Ret.arr data)))

/-- `measure` (lines 123-148).  First `set_samples(sample_rate)` (line 179:
an unguarded device write, an `AttributeError` when `power_meter` is
absent), then `self.n_averages = n_averages`, then
`configure.scalar.power()`.  `type == 'average'` dispatches to `average`;
any other `type` does one raw read, divides by `self.conversion`
(`AttributeError` when unset) and prints the rounded reading
UNCONDITIONALLY (line 146 is not guarded by `self.verbose`). -/
def measure (d : Dev) (npstd : List ℚ → ℚ) (ty : String)
    (sample_rate n_averages : Nat) (s : PMState) :
    PMState × List Eff × Outcome :=
  if s.power_meter = false then
    (s, [], Outcome.raised)
  else
    let s1 : PMState := { s with n_averages := some n_averages }
    let t1 := [Eff.devSetAvgCount sample_rate, Eff.devConfigPower]
    if ty = "average" then
      let r := average d npstd s1
      (r.1, t1 ++ r.2.1, r.2.2)
    else
      match s1.conversion with
      | none =>
        ({ s1 with readsDone := s1.readsDone + 1 },
         t1 ++ [Eff.devRead s1.readsDone], Outcome.raised)
      | some c =>
        let v := d.readVals s1.readsDone / c
        ({ s1 with readsDone := s1.readsDone + 1 },
         t1 ++ [Eff.devRead s1.readsDone,
                Eff.print (Out.powerReading (round2 v) s1.unit)],
         Outcome.ok (some (Ret.scalar v)))

/-- Predicate on effects: a raw device read. -/
def isRead : Eff → Bool
  | Eff.devRead _ => true
  | _ => false

/-- Predicate on effects: a console print. -/
def isPrint : Eff → Bool
  | Eff.print _ => true
  | _ => false

/-- The consistency property claimed as an invariant by the specification:
the stored native unit mode is `DBM` with scale 1 when the stored unit
symbol is `dBm`, and the linear-power mode `W` with the table scale
otherwise; both derived fields have been set. -/
def consistent (s : PMState) : Prop :=
  s.unit_to_measure = some (modeOf s.unit) ∧ s.conversion = lookupScale s.unit

instance (s : PMState) : Decidable (consistent s) := by
  unfold consistent; infer_instance

/-- Example world: readings 2, 3, 4, …; the operator would type `xyz`. -/
def exDev : Dev := { readVals := fun k => (k : ℚ) + 2, inputAnswer := "xyz" }

/-- Example world whose device rejects the unit write of `set_units`. -/
def exDevFail : Dev :=
  { readVals := fun _ => 0, inputAnswer := "", unitWriteFails := true }

/-- Example state: a freshly constructed controller, nothing opened. -/
def exFresh : PMState := construct [] true

/-- Example state: a connected controller in unit `W` with both derived
fields set, three averages configured. -/
def exConn : PMState :=
  { devices := ["USB0"], device := some "USB0", inst := some "USB0",
    power_meter := true, unit := "W", verbose := true,
    n_averages := some 3, conversion := some 1,
    unit_to_measure := some "W" }

/-- Example world whose operator, when prompted, types another string that
is not a key of the unit table. -/
def exDevTypo : Dev := { readVals := fun _ => 0, inputAnswer := "Watt" }

/-- Example state: a connected controller whose stored unit symbol is not
a key of the unit table. -/
def exBadUnit : PMState :=
  { devices := ["USB0"], device := some "USB0", inst := some "USB0",
    power_meter := true, unit := "watts", verbose := true,
    conversion := some 1, unit_to_measure := some "W" }

/-- C6: `close` never raises — in every controller state and for every
injected failure it returns normally — and whenever the handle is absent or
its release fails, the `No device connected!` message is printed. -/
theorem close_never_raises (d : Dev) (s : PMState) :
    (close d s).2.2 = Outcome.ok none ∧
    ((s.inst = none ∨ d.closeFails = true) →
      Eff.print Out.noDevice ∈ (close d s).2.1) := by
  unfold close
  cases hi : s.inst <;> cases hcf : d.closeFails <;>
    cases hv : s.verbose <;> cases hd : s.device <;> simp

/-- Witness for C6 at a concrete state: fresh controller, failing close. -/
theorem close_never_raises_witness :
    (close exDevFail exFresh).2.2 = Outcome.ok none ∧
    ((exFresh.inst = none ∨ exDevFail.closeFails = true) →
      Eff.print Out.noDevice ∈ (close exDevFail exFresh).2.1) :=
  close_never_raises exDevFail exFresh

/-- C3: `initialise` with no argument: zero discovered devices terminates
the process via `sys.exit` with an empty trace (in particular no open is
attempted); exactly one device is opened without prompting; several devices
block on the interactive prompt and adopt the typed answer; and an open or
wrap failure is caught — the call returns normally, logs the connection
failure, and (from a fresh controller) leaves no usable driver object. -/
theorem initialise_cases (d : Dev) (s : PMState) :
    (s.devices = [] →
      initialise d none s = (s, [], Outcome.exited "Could not find device")) ∧
    (∀ dv, s.devices = [dv] → d.openFails = false → d.wrapFails = false →
      (initialise d none s).1.device = some dv ∧
      (initialise d none s).1.power_meter = true ∧
      (initialise d none s).2.2 = Outcome.ok none ∧
      Eff.openRes dv ∈ (initialise d none s).2.1 ∧
      Eff.promptInput ∉ (initialise d none s).2.1) ∧
    (∀ dv1 dv2 rest, s.devices = dv1 :: dv2 :: rest →
      Eff.promptInput ∈ (initialise d none s).2.1 ∧
      (initialise d none s).1.device = some d.inputAnswer) ∧
    ((d.openFails = true ∨ d.wrapFails = true) → s.devices ≠ [] →
      s.power_meter = false →
      (initialise d none s).2.2 = Outcome.ok none ∧
      (initialise d none s).1.power_meter = false ∧
      Eff.print Out.connFailed ∈ (initialise d none s).2.1) := by
  refine ⟨?_, ?_, ?_, ?_⟩
  · intro h
    unfold initialise
    rw [h]
  · intro dv h ho hw
    unfold initialise initialiseOpen
    rw [h]
    cases hv : s.verbose <;> simp [ho, hw, hv]
  · intro dv1 dv2 rest h
    unfold initialise initialiseOpen
    rw [h]
    cases hof : d.openFails <;> cases hwf : d.wrapFails <;>
      cases hv : s.verbose <;> simp
  · intro hfail hne hpm
    unfold initialise initialiseOpen
    rcases hd : s.devices with _ | ⟨a, _ | ⟨b, l⟩⟩
    · exact absurd hd hne
    · rcases hfail with ho | hw
      · simp [ho, hpm]
      · cases hof : d.openFails <;> simp [hof, hw, hpm]
    · rcases hfail with ho | hw
      · simp [ho, hpm]
      · cases hof : d.openFails <;> simp [hof, hw, hpm]

/-- Witness for C3 at a concrete state: one discovered device, responsive
transport. -/
theorem initialise_cases_witness :
    ((construct ["USB0"] true).devices = [] →
      initialise exDev none (construct ["USB0"] true) =
        (construct ["USB0"] true, [], Outcome.exited "Could not find device")) ∧
    (∀ dv, (construct ["USB0"] true).devices = [dv] →
      exDev.openFails = false → exDev.wrapFails = false →
      (initialise exDev none (construct ["USB0"] true)).1.device = some dv ∧
      (initialise exDev none (construct ["USB0"] true)).1.power_meter = true ∧
      (initialise exDev none (construct ["USB0"] true)).2.2 = Outcome.ok none ∧
      Eff.openRes dv ∈ (initialise exDev none (construct ["USB0"] true)).2.1 ∧
      Eff.promptInput ∉ (initialise exDev none (construct ["USB0"] true)).2.1) ∧
    (∀ dv1 dv2 rest,
      (construct ["USB0"] true).devices = dv1 :: dv2 :: rest →
      Eff.promptInput ∈ (initialise exDev none (construct ["USB0"] true)).2.1 ∧
      (initialise exDev none (construct ["USB0"] true)).1.device =
        some exDev.inputAnswer) ∧
    ((exDev.openFails = true ∨ exDev.wrapFails = true) →
      (construct ["USB0"] true).devices ≠ [] →
      (construct ["USB0"] true).power_meter = false →
      (initialise exDev none (construct ["USB0"] true)).2.2 = Outcome.ok none ∧
      (initialise exDev none (construct ["USB0"] true)).1.power_meter = false ∧
      Eff.print Out.connFailed ∈
        (initialise exDev none (construct ["USB0"] true)).2.1) :=
  initialise_cases exDev (construct ["USB0"] true)

/-- Helper: on a valid unit, a present driver object and a successful
device write, `set_units` stores the unit, the matching mode and the
matching scale, pushes the mode, and prints when verbose. -/
theorem set_units_success (d : Dev) (u : String) (c : ℚ) (s : PMState)
    (hc : lookupScale u = some c) (hne : u ≠ "")
    (hpm : s.power_meter = true) (hw : d.unitWriteFails = false) :
    set_units d (some u) s =
      ({ s with
          unit := u,
          unit_to_measure := some (modeOf u),
          conversion := some c },
       [Eff.devSetUnit (modeOf u)] ++
         (if s.verbose then [Eff.print (Out.unitsSet u)] else []),
       Outcome.ok none) := by
  unfold set_units adoptUnit repromptUnit setUnitsBody
  simp [hne, hc, hpm, hw]

/-- C5: a successful `set_units` with a unit symbol from the table pushes
native mode `DBM` to the device exactly for `dBm`, and the linear-power
native mode (the string `W`, called POWER in the specification) for every
other unit. -/
theorem set_units_pushes_mode (d : Dev) (u : String) (c : ℚ) (s : PMState)
    (hc : lookupScale u = some c) (hne : u ≠ "")
    (hpm : s.power_meter = true) (hw : d.unitWriteFails = false) :
    Eff.devSetUnit (if u = "dBm" then "DBM" else "W") ∈
      (set_units d (some u) s).2.1 := by
  rw [set_units_success d u c s hc hne hpm hw]
  simp [modeOf]

/-- Witness for C5: unit `dBm` on a connected controller pushes `DBM`. -/
theorem set_units_pushes_mode_witness :
    Eff.devSetUnit (if "dBm" = "dBm" then "DBM" else "W") ∈
      (set_units exDev (some "dBm") exConn).2.1 :=
  set_units_pushes_mode exDev "dBm" 1 exConn (by decide) (by decide) rfl rfl

/-- Helper: a single measurement on a connected controller with conversion
`c` returns the next raw reading divided by `c`. -/
theorem measure_single_outcome (d : Dev) (npstd : List ℚ → ℚ)
    (sr na : Nat) (s : PMState) (c : ℚ)
    (hpm : s.power_meter = true) (hc : s.conversion = some c) :
    (measure d npstd "single" sr na s).2.2 =
      Outcome.ok (some (Ret.scalar (d.readVals s.readsDone / c))) := by
  unfold measure
  simp [hpm, hc]

/-- Helper: an averaged measurement on a connected controller with
conversion `c` returns the next `na` raw readings, each divided by `c`. -/
theorem measure_average_outcome (d : Dev) (npstd : List ℚ → ℚ)
    (sr na : Nat) (s : PMState) (c : ℚ)
    (hpm : s.power_meter = true) (hc : s.conversion = some c) :
    (measure d npstd "average" sr na s).2.2 =
      Outcome.ok (some (Ret.arr ((List.range na).map
        (fun i => d.readVals (s.readsDone + i) / c)))) := by
  unfold measure average
  by_cases hna : na = 0 <;> simp [hpm, hc, hna]

/-- C1: after a successful `set_units u` with `u` in the table, both a
single measurement and every element of an averaged measurement equal the
raw device reading divided by the table scale of `u`; the table is
`nW ↦ 1e-9`, `uW ↦ 1e-6`, `mW ↦ 1e-3`, `W ↦ 1`, `dBm ↦ 1`. -/
theorem units_scale_measurements (d : Dev) (npstd : List ℚ → ℚ)
    (u : String) (c : ℚ) (s : PMState) (sr na : Nat)
    (hc : lookupScale u = some c) (hne : u ≠ "")
    (hpm : s.power_meter = true) (hw : d.unitWriteFails = false) :
    (set_units d (some u) s).1.conversion = some c ∧
    (measure d npstd "single" sr na (set_units d (some u) s).1).2.2 =
      Outcome.ok (some (Ret.scalar
        (d.readVals (set_units d (some u) s).1.readsDone / c))) ∧
    (measure d npstd "average" sr na (set_units d (some u) s).1).2.2 =
      Outcome.ok (some (Ret.arr ((List.range na).map (fun i =>
        d.readVals ((set_units d (some u) s).1.readsDone + i) / c)))) ∧
    lookupScale "nW" = some (1 / 1000000000) ∧
    lookupScale "uW" = some (1 / 1000000) ∧
    lookupScale "mW" = some (1 / 1000) ∧
    lookupScale "W" = some 1 ∧
    lookupScale "dBm" = some 1 := by
  have h1 := set_units_success d u c s hc hne hpm hw
  refine ⟨?_, ?_, ?_, rfl, rfl, rfl, rfl, rfl⟩
  · rw [h1]
  · rw [h1]
    exact measure_single_outcome d npstd sr na _ c hpm rfl
  · rw [h1]
    exact measure_average_outcome d npstd sr na _ c hpm rfl

/-- Witness for C1: unit `mW` on a connected controller, reading stream
2, 3, 4, …. -/
theorem units_scale_measurements_witness :
    (set_units exDev (some "mW") exConn).1.conversion = some (1 / 1000) ∧
    (measure exDev (fun _ => 0) "single" 10 3
        (set_units exDev (some "mW") exConn).1).2.2 =
      Outcome.ok (some (Ret.scalar (exDev.readVals
        (set_units exDev (some "mW") exConn).1.readsDone / (1 / 1000)))) ∧
    (measure exDev (fun _ => 0) "average" 10 3
        (set_units exDev (some "mW") exConn).1).2.2 =
      Outcome.ok (some (Ret.arr ((List.range 3).map (fun i =>
        exDev.readVals ((set_units exDev (some "mW") exConn).1.readsDone + i) /
          (1 / 1000))))) ∧
    lookupScale "nW" = some (1 / 1000000000) ∧
    lookupScale "uW" = some (1 / 1000000) ∧
    lookupScale "mW" = some (1 / 1000) ∧
    lookupScale "W" = some 1 ∧
    lookupScale "dBm" = some 1 :=
  units_scale_measurements exDev (fun _ => 0) "mW" (1 / 1000) exConn 10 3
    rfl (by decide) rfl rfl

/-- Helper: the adoption step only touches the unit symbol. -/
theorem adoptUnit_fields (unit : Option String) (s : PMState) :
    (adoptUnit unit s).conversion = s.conversion ∧
    (adoptUnit unit s).unit_to_measure = s.unit_to_measure ∧
    (adoptUnit unit s).power_meter = s.power_meter := by
  unfold adoptUnit
  rcases unit with _ | u
  · exact ⟨rfl, rfl, rfl⟩
  · by_cases hu : u = "" <;> simp [hu]

/-- Helper: the re-prompt step only touches the unit symbol. -/
theorem repromptUnit_fields (d : Dev) (s : PMState) :
    (repromptUnit d s).1.conversion = s.conversion ∧
    (repromptUnit d s).1.unit_to_measure = s.unit_to_measure ∧
    (repromptUnit d s).1.power_meter = s.power_meter := by
  unfold repromptUnit
  by_cases h : (lookupScale s.unit).isNone <;> simp [h]

/-- Helper: the body of `set_units` keeps the unit symbol and always stores
the mode matching it (the assignment sits before the `try` block). -/
theorem setUnitsBody_mode (d : Dev) (s2 : PMState) :
    (setUnitsBody d s2).1.unit = s2.unit ∧
    (setUnitsBody d s2).1.unit_to_measure = some (modeOf s2.unit) := by
  unfold setUnitsBody
  by_cases h : s2.power_meter = false ∨ d.unitWriteFails = true
  · simp [h]
  · rcases hc : lookupScale s2.unit with _ | c <;> simp [h, hc]

/-- Helper: the body of `set_units` updates the scale factor exactly when
the driver object is present, the device write succeeds and the unit is in
the table; otherwise the previous scale factor survives. -/
theorem setUnitsBody_conversion (d : Dev) (s2 : PMState) :
    ((s2.power_meter = true ∧ d.unitWriteFails = false) →
      ∀ c, lookupScale s2.unit = some c →
        (setUnitsBody d s2).1.conversion = some c) ∧
    ((s2.power_meter = false ∨ d.unitWriteFails = true ∨
        lookupScale s2.unit = none) →
      (setUnitsBody d s2).1.conversion = s2.conversion) := by
  unfold setUnitsBody
  by_cases h : s2.power_meter = false ∨ d.unitWriteFails = true
  · refine ⟨?_, ?_⟩
    · rintro ⟨hpm, hw⟩
      rcases h with h | h
      · rw [hpm] at h; exact absurd h (by simp)
      · rw [hw] at h; exact absurd h (by simp)
    · intro _; simp [h]
  · rcases hc : lookupScale s2.unit with _ | c
    · refine ⟨?_, ?_⟩
      · intro _ c hcc; exact absurd hcc (by simp)
      · intro _; simp [h, hc]
    · refine ⟨?_, ?_⟩
      · intro _ c2 hcc
        simp [h, hc]
        exact Option.some_inj.mp hcc
      · rintro (hpm | hw | hn)
        · exact absurd (Or.inl hpm) h
        · exact absurd (Or.inr hw) h
        · exact absurd hn (by simp)

/-- Helper: the re-prompt step performs no device push. -/
theorem repromptUnit_no_push (d : Dev) (s : PMState) (m : String) :
    Eff.devSetUnit m ∉ (repromptUnit d s).2 := by
  unfold repromptUnit
  by_cases h : (lookupScale s.unit).isNone <;> simp [h]

/-- Helper: whenever the body of `set_units` pushes a native mode to the
device, the pushed value is exactly the one stored in `unit_to_measure`
by this same call — the mode field is read only after being assigned. -/
theorem setUnitsBody_push (d : Dev) (s2 : PMState) (m : String) :
    Eff.devSetUnit m ∈ (setUnitsBody d s2).2 →
    (setUnitsBody d s2).1.unit_to_measure = some m := by
  intro hm
  unfold setUnitsBody at hm ⊢
  by_cases h : s2.power_meter = false ∨ d.unitWriteFails = true
  · simp [h] at hm
  · rcases hc : lookupScale s2.unit with _ | c
    · simp [h, hc] at hm ⊢
      exact hm.symm
    · cases hv : s2.verbose <;> simp [h, hc, hv] at hm ⊢ <;> exact hm.symm

/-- Helper: `close` does not mutate the controller state. -/
theorem close_state_id (d : Dev) (s : PMState) : (close d s).1 = s := by
  unfold close
  cases hi : s.inst <;> cases hcf : d.closeFails <;> cases hv : s.verbose <;>
    cases hd : s.device <;> simp

/-- Helper: `set_bandwidth` does not mutate the controller state. -/
theorem set_bandwidth_state_id (d : Dev) (st : String) (s : PMState) :
    (set_bandwidth d st s).1 = s := by
  unfold set_bandwidth
  by_cases h1 : st = "low" <;> by_cases h2 : st = "high" <;>
    by_cases h3 : s.power_meter = false ∨ d.lpassWriteFails = true <;>
    simp [h1, h2, h3]

/-- Helper: `initialise` touches neither the unit symbol nor the derived
unit fields. -/
theorem initialise_preserves_units (d : Dev) (dv : Option String)
    (s : PMState) :
    (initialise d dv s).1.unit = s.unit ∧
    (initialise d dv s).1.conversion = s.conversion ∧
    (initialise d dv s).1.unit_to_measure = s.unit_to_measure := by
  unfold initialise initialiseOpen
  rcases dv with _ | x <;> rcases hd : s.devices with _ | ⟨a, _ | ⟨b, l⟩⟩ <;>
    cases ho : d.openFails <;> cases hw : d.wrapFails <;>
    cases hv : s.verbose <;> simp

/-- Helper: `average` touches neither the unit symbol nor the derived unit
fields (it only advances the read counter). -/
theorem average_preserves_units (d : Dev) (npstd : List ℚ → ℚ)
    (s : PMState) :
    (average d npstd s).1.unit = s.unit ∧
    (average d npstd s).1.conversion = s.conversion ∧
    (average d npstd s).1.unit_to_measure = s.unit_to_measure := by
  unfold average
  rcases hn : s.n_averages with _ | n
  · simp
  · by_cases hn0 : n = 0 <;> cases hpm : s.power_meter <;>
      rcases hc : s.conversion with _ | c <;> simp [hn0, hc]

/-- Helper: `measure` touches neither the unit symbol nor the derived unit
fields (it only sets `n_averages` and advances the read counter). -/
theorem measure_preserves_units (d : Dev) (npstd : List ℚ → ℚ)
    (ty : String) (sr na : Nat) (s : PMState) :
    (measure d npstd ty sr na s).1.unit = s.unit ∧
    (measure d npstd ty sr na s).1.conversion = s.conversion ∧
    (measure d npstd ty sr na s).1.unit_to_measure = s.unit_to_measure := by
  unfold measure
  cases hpm : s.power_meter
  · simp
  · by_cases hty : ty = "average"
    · have h := average_preserves_units d npstd
        { s with n_averages := some na }
      rw [hpm] at h
      simpa [hty] using h
    · rcases hc : s.conversion with _ | c <;> simp [hty, hc]

/-- C2 (counterexample): from the consistent connected state in unit `W`,
a `set_units('mW')` call whose device write fails leaves the controller
inconsistent — the mode field already reflects `mW` while the scale factor
still belongs to `W`. -/
theorem consistency_broken :
    consistent exConn ∧
    ¬ consistent (set_units exDevFail (some "mW") exConn).1 := by
  constructor
  · constructor <;> rfl
  · intro h
    have h2 := h.2
    rw [show (set_units exDevFail (some "mW") exConn).1.conversion =
        some 1 from rfl] at h2
    rw [show lookupScale (set_units exDevFail (some "mW") exConn).1.unit =
        some (1 / 1000) from rfl] at h2
    have : (1 : ℚ) = 1 / 1000 := Option.some_inj.mp h2
    norm_num at this

/-- C2 (amended): after every `set_units` call the stored native unit mode
matches the stored unit symbol, and the stored scale factor matches it when
the driver object is present, the device write succeeds and the final
symbol is in the table; when the write fails (or the driver object or
table entry is missing), the scale factor keeps its previous value — so a
failed write can leave it inconsistent with the new symbol.  Neither
derived field is read before it has first been set: the native mode pushed
to the device is always the value stored by the same call, and an
operation that would read a never-set scale factor (`measure` single at
line 145, `average` at line 85) raises instead of returning a value.
Every other operation leaves both derived fields and the unit symbol
untouched and so preserves consistency. -/
theorem operations_consistency (d : Dev) (s : PMState) :
    (∀ unit, (set_units d unit s).1.unit_to_measure =
        some (modeOf (set_units d unit s).1.unit)) ∧
    (∀ unit, s.power_meter = true → d.unitWriteFails = false →
      ∀ c, lookupScale (set_units d unit s).1.unit = some c →
        (set_units d unit s).1.conversion = some c) ∧
    (∀ unit, (s.power_meter = false ∨ d.unitWriteFails = true ∨
        lookupScale (set_units d unit s).1.unit = none) →
      (set_units d unit s).1.conversion = s.conversion) ∧
    (∀ unit m, Eff.devSetUnit m ∈ (set_units d unit s).2.1 →
      (set_units d unit s).1.unit_to_measure = some m) ∧
    (s.conversion = none → ∀ npstd sr na,
      (measure d npstd "single" sr na s).2.2 = Outcome.raised) ∧
    (s.conversion = none → ∀ npstd n, s.n_averages = some n → 1 ≤ n →
      (average d npstd s).2.2 = Outcome.raised) ∧
    ((close d s).1 = s) ∧
    (∀ st, (set_bandwidth d st s).1 = s) ∧
    (∀ dv, (initialise d dv s).1.unit = s.unit ∧
      (initialise d dv s).1.conversion = s.conversion ∧
      (initialise d dv s).1.unit_to_measure = s.unit_to_measure) ∧
    (∀ npstd, (average d npstd s).1.unit = s.unit ∧
      (average d npstd s).1.conversion = s.conversion ∧
      (average d npstd s).1.unit_to_measure = s.unit_to_measure) ∧
    (∀ npstd ty sr na, (measure d npstd ty sr na s).1.unit = s.unit ∧
      (measure d npstd ty sr na s).1.conversion = s.conversion ∧
      (measure d npstd ty sr na s).1.unit_to_measure = s.unit_to_measure) ∧
    (consistent s → consistent (close d s).1) ∧
    (∀ dv, consistent s → consistent (initialise d dv s).1) ∧
    (∀ st, consistent s → consistent (set_bandwidth d st s).1) ∧
    (∀ npstd, consistent s → consistent (average d npstd s).1) ∧
    (∀ npstd ty sr na, consistent s →
      consistent (measure d npstd ty sr na s).1) := by
  have hs2 : ∀ unit, (set_units d unit s).1 =
      (setUnitsBody d (repromptUnit d (adoptUnit unit s)).1).1 := by
    intro unit; rfl
  have hpm2 : ∀ unit, (repromptUnit d (adoptUnit unit s)).1.power_meter =
      s.power_meter := by
    intro unit
    rw [(repromptUnit_fields d (adoptUnit unit s)).2.2,
      (adoptUnit_fields unit s).2.2]
  have hcv2 : ∀ unit, (repromptUnit d (adoptUnit unit s)).1.conversion =
      s.conversion := by
    intro unit
    rw [(repromptUnit_fields d (adoptUnit unit s)).1,
      (adoptUnit_fields unit s).1]
  refine ⟨?_, ?_, ?_, ?_, ?_, ?_, ?_, ?_, ?_, ?_, ?_, ?_, ?_, ?_, ?_, ?_⟩
  · intro unit
    rw [hs2 unit, (setUnitsBody_mode d _).2, (setUnitsBody_mode d _).1]
  · intro unit hpm hw c hc
    rw [hs2 unit] at hc ⊢
    rw [(setUnitsBody_mode d _).1] at hc
    exact (setUnitsBody_conversion d _).1 ⟨(hpm2 unit).trans hpm, hw⟩ c hc
  · intro unit hdisj
    rw [hs2 unit] at hdisj ⊢
    rw [(setUnitsBody_mode d _).1] at hdisj
    rw [(setUnitsBody_conversion d _).2 ?_, hcv2 unit]
    rcases hdisj with h | h | h
    · exact Or.inl ((hpm2 unit).trans h)
    · exact Or.inr (Or.inl h)
    · exact Or.inr (Or.inr h)
  · intro unit m hm
    have hm2 : Eff.devSetUnit m ∈
        (repromptUnit d (adoptUnit unit s)).2 ++
          (setUnitsBody d (repromptUnit d (adoptUnit unit s)).1).2 := hm
    rcases List.mem_append.mp hm2 with h | h
    · exact absurd h (repromptUnit_no_push d _ m)
    · rw [hs2 unit]
      exact setUnitsBody_push d _ m h
  · intro hcv npstd sr na
    unfold measure
    cases hpm : s.power_meter <;> simp [hpm, hcv]
  · intro hcv npstd n hn h1
    have hn0 : n ≠ 0 := by omega
    unfold average
    cases hpm : s.power_meter <;> simp [hn, hn0, hcv, hpm]
  · exact close_state_id d s
  · exact fun st => set_bandwidth_state_id d st s
  · exact fun dv => initialise_preserves_units d dv s
  · exact fun npstd => average_preserves_units d npstd s
  · exact fun npstd ty sr na => measure_preserves_units d npstd ty sr na s
  · intro h; rwa [close_state_id]
  · intro dv h
    obtain ⟨h1, h2, h3⟩ := initialise_preserves_units d dv s
    exact ⟨by rw [h3, h1]; exact h.1, by rw [h2, h1]; exact h.2⟩
  · intro st h; rwa [set_bandwidth_state_id]
  · intro npstd h
    obtain ⟨h1, h2, h3⟩ := average_preserves_units d npstd s
    exact ⟨by rw [h3, h1]; exact h.1, by rw [h2, h1]; exact h.2⟩
  · intro npstd ty sr na h
    obtain ⟨h1, h2, h3⟩ := measure_preserves_units d npstd ty sr na s
    exact ⟨by rw [h3, h1]; exact h.1, by rw [h2, h1]; exact h.2⟩

/-- Witness for the amended C2 at a concrete connected state. -/
theorem operations_consistency_witness :
    (∀ unit, (set_units exDev unit exConn).1.unit_to_measure =
        some (modeOf (set_units exDev unit exConn).1.unit)) ∧
    (∀ unit, exConn.power_meter = true → exDev.unitWriteFails = false →
      ∀ c, lookupScale (set_units exDev unit exConn).1.unit = some c →
        (set_units exDev unit exConn).1.conversion = some c) ∧
    (∀ unit, (exConn.power_meter = false ∨ exDev.unitWriteFails = true ∨
        lookupScale (set_units exDev unit exConn).1.unit = none) →
      (set_units exDev unit exConn).1.conversion = exConn.conversion) ∧
    (∀ unit m, Eff.devSetUnit m ∈ (set_units exDev unit exConn).2.1 →
      (set_units exDev unit exConn).1.unit_to_measure = some m) ∧
    (exConn.conversion = none → ∀ npstd sr na,
      (measure exDev npstd "single" sr na exConn).2.2 = Outcome.raised) ∧
    (exConn.conversion = none → ∀ npstd n, exConn.n_averages = some n →
      1 ≤ n → (average exDev npstd exConn).2.2 = Outcome.raised) ∧
    ((close exDev exConn).1 = exConn) ∧
    (∀ st, (set_bandwidth exDev st exConn).1 = exConn) ∧
    (∀ dv, (initialise exDev dv exConn).1.unit = exConn.unit ∧
      (initialise exDev dv exConn).1.conversion = exConn.conversion ∧
      (initialise exDev dv exConn).1.unit_to_measure =
        exConn.unit_to_measure) ∧
    (∀ npstd, (average exDev npstd exConn).1.unit = exConn.unit ∧
      (average exDev npstd exConn).1.conversion = exConn.conversion ∧
      (average exDev npstd exConn).1.unit_to_measure =
        exConn.unit_to_measure) ∧
    (∀ npstd ty sr na,
      (measure exDev npstd ty sr na exConn).1.unit = exConn.unit ∧
      (measure exDev npstd ty sr na exConn).1.conversion =
        exConn.conversion ∧
      (measure exDev npstd ty sr na exConn).1.unit_to_measure =
        exConn.unit_to_measure) ∧
    (consistent exConn → consistent (close exDev exConn).1) ∧
    (∀ dv, consistent exConn → consistent (initialise exDev dv exConn).1) ∧
    (∀ st, consistent exConn → consistent (set_bandwidth exDev st exConn).1) ∧
    (∀ npstd, consistent exConn → consistent (average exDev npstd exConn).1) ∧
    (∀ npstd ty sr na, consistent exConn →
      consistent (measure exDev npstd ty sr na exConn).1) :=
  operations_consistency exDev exConn

/-- C4 (counterexample): a failing unit write during `set_units('dBm')`
from the connected `W`-state leaves the scale factor in place but CHANGES
the stored native unit mode — the claim that both remain unchanged is
false. -/
theorem set_units_fail_mode_changed :
    exDevFail.unitWriteFails = true ∧
    exConn.power_meter = true ∧
    Eff.print Out.unitError ∈ (set_units exDevFail (some "dBm") exConn).2.1 ∧
    (set_units exDevFail (some "dBm") exConn).1.conversion =
      exConn.conversion ∧
    (set_units exDevFail (some "dBm") exConn).1.unit_to_measure ≠
      exConn.unit_to_measure := by
  refine ⟨rfl, rfl, ?_, rfl, ?_⟩
  · decide
  · decide

/-- C4 (amended): when the device write of `set_units` fails, the failure
is logged and the previously stored scale factor remains unchanged, but
the stored native unit mode — assigned before the `try` block — is updated
to match the (possibly new) unit symbol. -/
theorem set_units_fail_state (d : Dev) (unit : Option String) (s : PMState)
    (hw : d.unitWriteFails = true) :
    (set_units d unit s).2.2 = Outcome.ok none ∧
    Eff.print Out.unitError ∈ (set_units d unit s).2.1 ∧
    (set_units d unit s).1.conversion = s.conversion ∧
    (set_units d unit s).1.unit_to_measure =
      some (modeOf (set_units d unit s).1.unit) := by
  refine ⟨rfl, ?_, ?_, ?_⟩
  · show Eff.print Out.unitError ∈
      (repromptUnit d (adoptUnit unit s)).2 ++
        (setUnitsBody d (repromptUnit d (adoptUnit unit s)).1).2
    refine List.mem_append_right _ ?_
    unfold setUnitsBody
    simp [hw]
  · show (setUnitsBody d (repromptUnit d (adoptUnit unit s)).1).1.conversion =
      s.conversion
    rw [(setUnitsBody_conversion d _).2 (Or.inr (Or.inl hw)),
      (repromptUnit_fields d _).1, (adoptUnit_fields unit s).1]
  · show (setUnitsBody d (repromptUnit d (adoptUnit unit s)).1).1.unit_to_measure
      = some (modeOf
        (setUnitsBody d (repromptUnit d (adoptUnit unit s)).1).1.unit)
    rw [(setUnitsBody_mode d _).2, (setUnitsBody_mode d _).1]

/-- Witness for the amended C4: failing write, unit `mW`, connected
`W`-state. -/
theorem set_units_fail_state_witness :
    (set_units exDevFail (some "mW") exConn).2.2 = Outcome.ok none ∧
    Eff.print Out.unitError ∈ (set_units exDevFail (some "mW") exConn).2.1 ∧
    (set_units exDevFail (some "mW") exConn).1.conversion =
      exConn.conversion ∧
    (set_units exDevFail (some "mW") exConn).1.unit_to_measure =
      some (modeOf (set_units exDevFail (some "mW") exConn).1.unit) :=
  set_units_fail_state exDevFail (some "mW") exConn rfl

/-- C8: when `set_units` runs with a stored unit symbol outside the table,
it prompts exactly once, adopts whatever the operator typed without
re-validating it, pushes the corresponding native mode to the device, and
then uses the typed value as a key into the scale table — with a still
invalid value the subscript raises `KeyError`, which the `except` logs,
leaving the scale factor unchanged. -/
theorem set_units_single_reprompt (d : Dev) (s : PMState)
    (hinv : lookupScale s.unit = none)
    (hinv2 : lookupScale d.inputAnswer = none)
    (hpm : s.power_meter = true) (hw : d.unitWriteFails = false) :
    (set_units d none s).2.1.count Eff.promptInput = 1 ∧
    (set_units d none s).1.unit = d.inputAnswer ∧
    Eff.devSetUnit (modeOf d.inputAnswer) ∈ (set_units d none s).2.1 ∧
    Eff.print Out.unitError ∈ (set_units d none s).2.1 ∧
    (set_units d none s).1.conversion = s.conversion := by
  have h4 : set_units d none s =
      ({ s with
          unit := d.inputAnswer,
          unit_to_measure := some (modeOf d.inputAnswer) },
       [Eff.promptInput, Eff.devSetUnit (modeOf d.inputAnswer),
        Eff.print Out.unitError],
       Outcome.ok none) := by
    unfold set_units adoptUnit repromptUnit setUnitsBody
    simp [hinv, hinv2, hpm, hw]
  rw [h4]
  refine ⟨?_, rfl, ?_, ?_, rfl⟩
  · simp [List.count_cons]
  · simp
  · simp

/-- Witness for C8: stored unit `watts`, operator types `Watt` — also not
in the table. -/
theorem set_units_single_reprompt_witness :
    (set_units exDevTypo none exBadUnit).2.1.count Eff.promptInput = 1 ∧
    (set_units exDevTypo none exBadUnit).1.unit = exDevTypo.inputAnswer ∧
    Eff.devSetUnit (modeOf exDevTypo.inputAnswer) ∈
      (set_units exDevTypo none exBadUnit).2.1 ∧
    Eff.print Out.unitError ∈ (set_units exDevTypo none exBadUnit).2.1 ∧
    (set_units exDevTypo none exBadUnit).1.conversion =
      exBadUnit.conversion :=
  set_units_single_reprompt exDevTypo exBadUnit rfl rfl rfl rfl

/-- C9: `set_bandwidth('low')` writes 1 to the device low-pass filter
state and `set_bandwidth('high')` writes 0; every other input performs no
device write and logs an invalid-state message; in all cases the call
returns normally. -/
theorem set_bandwidth_cases (d : Dev) (st : String) (s : PMState)
    (hpm : s.power_meter = true) (hw : d.lpassWriteFails = false) :
    (set_bandwidth d st s).2.2 = Outcome.ok none ∧
    (st = "low" → Eff.devSetLpass 1 ∈ (set_bandwidth d st s).2.1) ∧
    (st = "high" → Eff.devSetLpass 0 ∈ (set_bandwidth d st s).2.1) ∧
    (st ≠ "low" → st ≠ "high" →
      (∀ v, Eff.devSetLpass v ∉ (set_bandwidth d st s).2.1) ∧
      Eff.print (Out.invalidState st) ∈ (set_bandwidth d st s).2.1) := by
  unfold set_bandwidth
  by_cases h1 : st = "low"
  · simp [h1, hpm, hw]
  · by_cases h2 : st = "high" <;> simp [h1, h2, hpm, hw]

/-- Witness for C9: `low` on a connected controller. -/
theorem set_bandwidth_cases_witness :
    (set_bandwidth exDev "low" exConn).2.2 = Outcome.ok none ∧
    ("low" = "low" → Eff.devSetLpass 1 ∈ (set_bandwidth exDev "low" exConn).2.1) ∧
    ("low" = "high" → Eff.devSetLpass 0 ∈ (set_bandwidth exDev "low" exConn).2.1) ∧
    ("low" ≠ "low" → "low" ≠ "high" →
      (∀ v, Eff.devSetLpass v ∉ (set_bandwidth exDev "low" exConn).2.1) ∧
      Eff.print (Out.invalidState "low") ∈ (set_bandwidth exDev "low" exConn).2.1) :=
  set_bandwidth_cases exDev "low" exConn rfl rfl

/-- C7: with `n_averages = N ≥ 1` (as set by a prior `measure` call) and a
set conversion, `average` performs exactly `N` raw device reads, returns
the length-`N` sequence of scaled readings, and, when verbose, logs
exactly the 2-decimal rounding of the mean and of the standard deviation
of that returned sequence. -/
theorem average_stats (d : Dev) (npstd : List ℚ → ℚ) (s : PMState)
    (N : Nat) (c : ℚ) (hN : 1 ≤ N) (hn : s.n_averages = some N)
    (hpm : s.power_meter = true) (hc : s.conversion = some c) :
    (average d npstd s).2.2 = Outcome.ok (some (Ret.arr
      ((List.range N).map (fun i => d.readVals (s.readsDone + i) / c)))) ∧
    ((List.range N).map (fun i => d.readVals (s.readsDone + i) / c)).length
      = N ∧
    (average d npstd s).2.1.countP (fun e => isRead e) = N ∧
    (average d npstd s).1.readsDone = s.readsDone + N ∧
    (s.verbose = true →
      (average d npstd s).2.1 =
        (List.range N).map (fun i => Eff.devRead (s.readsDone + i)) ++
        [Eff.print (Out.averageValue (round2 (mean
            ((List.range N).map (fun i => d.readVals (s.readsDone + i) / c))))
          s.unit),
         Eff.print (Out.stdDev (round2 (npstd
            ((List.range N).map (fun i => d.readVals (s.readsDone + i) / c))))
          s.unit)]) := by
  have hN0 : N ≠ 0 := by omega
  have h : average d npstd s =
      ({ s with readsDone := s.readsDone + N },
       (List.range N).map (fun i => Eff.devRead (s.readsDone + i)) ++
         (if s.verbose then
           [Eff.print (Out.averageValue (round2 (mean
               ((List.range N).map
                 (fun i => d.readVals (s.readsDone + i) / c)))) s.unit),
            Eff.print (Out.stdDev (round2 (npstd
               ((List.range N).map
                 (fun i => d.readVals (s.readsDone + i) / c)))) s.unit)]
          else []),
       Outcome.ok (some (Ret.arr ((List.range N).map
         (fun i => d.readVals (s.readsDone + i) / c))))) := by
    unfold average
    simp [hn, hN0, hpm, hc]
  rw [h]
  refine ⟨rfl, by simp, ?_, rfl, ?_⟩
  · rw [List.countP_append, List.countP_map]
    have h2 : ((fun e => isRead e) ∘ fun i : Nat => Eff.devRead (s.readsDone + i))
        = fun _ => true := rfl
    rw [h2, List.countP_true, List.length_range]
    cases hv : s.verbose <;> simp [isRead, List.countP_cons]
  · intro hv
    simp [hv]

/-- Witness for C7 at the connected example state (`N = 3`, readings
2, 3, 4). -/
theorem average_stats_witness :
    (average exDev (fun _ => 0) exConn).2.2 = Outcome.ok (some (Ret.arr
      ((List.range 3).map
        (fun i => exDev.readVals (exConn.readsDone + i) / 1)))) ∧
    ((List.range 3).map
      (fun i => exDev.readVals (exConn.readsDone + i) / 1)).length = 3 ∧
    (average exDev (fun _ => 0) exConn).2.1.countP (fun e => isRead e) = 3 ∧
    (average exDev (fun _ => 0) exConn).1.readsDone =
      exConn.readsDone + 3 ∧
    (exConn.verbose = true →
      (average exDev (fun _ => 0) exConn).2.1 =
        (List.range 3).map (fun i => Eff.devRead (exConn.readsDone + i)) ++
        [Eff.print (Out.averageValue (round2 (mean
            ((List.range 3).map
              (fun i => exDev.readVals (exConn.readsDone + i) / 1))))
          exConn.unit),
         Eff.print (Out.stdDev (round2 ((fun _ => (0 : ℚ))
            ((List.range 3).map
              (fun i => exDev.readVals (exConn.readsDone + i) / 1))))
          exConn.unit)]) :=
  average_stats exDev (fun _ => 0) exConn 3 1 (by omega) rfl rfl rfl

/-- C10: with `verbose = False`, a single measurement still prints the
rounded power reading (line 146 is unconditional), while an averaged
measurement prints nothing (the prints of `average` are guarded by the
verbose flag). -/
theorem measure_print_unconditional (d : Dev) (npstd : List ℚ → ℚ)
    (sr na : Nat) (s : PMState) (c : ℚ)
    (hpm : s.power_meter = true) (hc : s.conversion = some c) :
    Eff.print (Out.powerReading (round2 (d.readVals s.readsDone / c)) s.unit)
      ∈ (measure d npstd "single" sr na s).2.1 ∧
    (s.verbose = false →
      ∀ e ∈ (measure d npstd "average" sr na s).2.1, isPrint e = false) := by
  constructor
  · unfold measure
    simp [hpm, hc]
  · intro hv e he
    unfold measure average at he
    by_cases hna : na = 0
    · simp [hpm, hna, hv] at he
      rcases he with he | he <;> subst he <;> rfl
    · simp [hpm, hna, hv, hc] at he
      rcases he with he | he | ⟨i, hi, he⟩ <;> subst he <;> rfl

/-- Witness for C10: non-verbose connected controller. -/
theorem measure_print_unconditional_witness :
    Eff.print (Out.powerReading (round2 (exDev.readVals
        ({ exConn with verbose := false } : PMState).readsDone / 1))
        ({ exConn with verbose := false } : PMState).unit)
      ∈ (measure exDev (fun _ => 0) "single" 10 3
          { exConn with verbose := false }).2.1 ∧
    (({ exConn with verbose := false } : PMState).verbose = false →
      ∀ e ∈ (measure exDev (fun _ => 0) "average" 10 3
        { exConn with verbose := false }).2.1, isPrint e = false) :=
  measure_print_unconditional exDev (fun _ => 0) 10 3
    { exConn with verbose := false } 1 rfl rfl

end PM100
